import Mathlib

/-!
Shallow embedding of the calculation engine of `PV_project_simulation.py`
(residential photovoltaic simulation).  The engine (source lines 32-72) is a
pure computation from `(panneau, meteo, nb_panneaux)` to a result record;
Python dict subscripts (lines 44-48, 59-60) raise `KeyError` on unknown keys,
which is modelled here by `Option`-valued lookups.  All Python floats are
modelled as exact rationals.  The comparison DataFrame (source lines 111-119)
is modelled by `comparison`.
-/

namespace PVSim

/-- Per-technology row of the `data` dict (source lines 36-42):
`rendement` (nominal efficiency, percent) and `prix` (price per watt). -/
structure PanelData where
  rendement : ℚ
  prix : ℚ
deriving DecidableEq, Repr

/-- `surface_par_module = 1.7` (source line 32). -/
def surface_par_module : ℚ := 1.7

/-- `puissance_par_panneau = 0.4` (source line 34). -/
def puissance_par_panneau : ℚ := 0.4

/-- `irradiation_marseille = 1824` (source line 62). -/
def irradiation_marseille : ℚ := 1824

/-- `conso_batiment = 8260` (source line 69). -/
def conso_batiment : ℚ := 8260

/-- The `data` dict of source lines 36-42, in source order. -/
def dataList : List (String × PanelData) :=
  [("Monocristallin", ⟨20.0, 1.20⟩),
   ("Polycristallin", ⟨17.5, 1.00⟩),
   ("Amorphe", ⟨10.0, 0.80⟩),
   ("Hétérojonction", ⟨21.5, 1.50⟩),
   ("Bifacial", ⟨19.5, 1.40⟩)]

/-- `data[panneau]` (source line 59-60): dict subscript, `KeyError` (none) on
an unknown key. -/
def data (panneau : String) : Option PanelData :=
  (dataList.find? (fun kv => kv.1 == panneau)).map Prod.snd

/-- The weather-factor dict of source lines 44-48, in source order. -/
def meteoList : List (String × ℚ) :=
  [("Ensoleillé", 1.0),
   ("Nuageux", 0.75),
   ("Pluvieux", 0.55)]

/-- `{"Ensoleillé": 1.0, "Nuageux": 0.75, "Pluvieux": 0.55}[meteo]`
(source lines 44-48): dict subscript, `KeyError` (none) on an unknown key. -/
def facteur_meteo (meteo : String) : Option ℚ :=
  (meteoList.find? (fun kv => kv.1 == meteo)).map Prod.snd

/-- The result record derived at source lines 33 and 61-72. -/
structure SimulationResult where
  surface_totale : ℚ
  puissance_kWp : ℚ
  production : ℚ
  efficacite : ℚ
  cout_total : ℚ
  autoconso : ℚ
  injecte : ℚ
  reprise : ℚ
deriving DecidableEq, Repr

/-- The arithmetic core (source lines 33, 61-72), once both dict lookups have
succeeded.  `production / (surface_totale or 1)` (line 65): Python `x or 1`
yields 1 when `x` is zero, else `x`. -/
def computeCore (d : PanelData) (f : ℚ) (nb_panneaux : ℕ) : SimulationResult :=
  let surface_totale : ℚ := surface_par_module * nb_panneaux
  let puissance_kWp : ℚ := nb_panneaux * puissance_par_panneau
  let production : ℚ := puissance_kWp * irradiation_marseille * f
  let efficacite : ℚ := production / (if surface_totale = 0 then 1 else surface_totale)
  let cout_total : ℚ := puissance_kWp * 1000 * d.prix
  let autoconso : ℚ := min conso_batiment production * 0.9
  let injecte : ℚ := max 0 (production - autoconso)
  let reprise : ℚ := max 0 (conso_batiment - autoconso)
  ⟨surface_totale, puissance_kWp, production, efficacite, cout_total,
   autoconso, injecte, reprise⟩

/-- The engine: dict lookups (source lines 44-48, 59-60) then the arithmetic
of lines 61-72. -/
def compute (panneau meteo : String) (nb_panneaux : ℕ) : Option SimulationResult := do
  let d ← data panneau
  let f ← facteur_meteo meteo
  pure (computeCore d f nb_panneaux)

/-- One row of the comparison DataFrame `df` (source lines 111-119), for a
technology `v`, the current panel count and the current weather factor. -/
structure ComparisonRow where
  rendementPct : ℚ
  kWp_installable : ℚ
  cout_total : ℚ
  production : ℚ
  efficacite : ℚ
deriving DecidableEq, Repr

/-- Row construction of source lines 111-119: `kWp installable` and the
derived production/efficiency columns use only `nb_panneaux` and
`facteur_meteo`; only `Coût total` and `Rendement (%)` read the row `v`. -/
def comparisonRow (v : PanelData) (nb_panneaux : ℕ) (f : ℚ) : ComparisonRow :=
  let kWp : ℚ := nb_panneaux * puissance_par_panneau
  let cout : ℚ := nb_panneaux * puissance_par_panneau * 1000 * v.prix
  let production : ℚ := kWp * irradiation_marseille * f
  let surface_totale : ℚ := surface_par_module * nb_panneaux
  let efficacite : ℚ := production / (if surface_totale = 0 then 1 else surface_totale)
  ⟨v.rendement, kWp, cout, production, efficacite⟩

/-- The comparison DataFrame `df` (source lines 111-119): one row per entry
of `data`, in dict order, at the current weather and panel count. -/
def comparison (meteo : String) (nb_panneaux : ℕ) :
    Option (List (String × ComparisonRow)) := do
  let f ← facteur_meteo meteo
  pure (dataList.map (fun kv => (kv.1, comparisonRow kv.2 nb_panneaux f)))

/-! ### Helper lemmas -/

theorem compute_eq_some_iff {p m : String} {n : ℕ} {r : SimulationResult} :
    compute p m n = some r ↔
      ∃ d f, data p = some d ∧ facteur_meteo m = some f ∧ r = computeCore d f n := by
  cases hd : data p <;> cases hf : facteur_meteo m <;>
    simp [compute, hd, hf, eq_comm]

theorem facteur_meteo_mem {m : String} {f : ℚ} (h : facteur_meteo m = some f) :
    f = 1 ∨ f = 3/4 ∨ f = 11/20 := by
  unfold facteur_meteo at h
  rcases Option.map_eq_some'.1 h with ⟨kv, hfind, hsnd⟩
  have hmem := List.mem_of_find?_eq_some hfind
  simp only [meteoList, List.mem_cons, List.not_mem_nil, or_false] at hmem
  rcases hmem with h1 | h2 | h3
  · subst h1; left; rw [← hsnd]; norm_num
  · subst h2; right; left; rw [← hsnd]; norm_num
  · subst h3; right; right; rw [← hsnd]; norm_num

theorem facteur_meteo_pos {m : String} {f : ℚ} (h : facteur_meteo m = some f) :
    0 < f := by
  rcases facteur_meteo_mem h with rfl | rfl | rfl <;> norm_num

theorem data_eq_none {p : String} (hp : p ∉ dataList.map Prod.fst) :
    data p = none := by
  have hfind : dataList.find? (fun kv => kv.1 == p) = none := by
    rw [List.find?_eq_none]
    intro kv hkv
    simp only [beq_iff_eq]
    intro hEq
    exact hp (hEq ▸ List.mem_map_of_mem Prod.fst hkv)
  simp [data, hfind]

theorem facteur_eq_none {m : String} (hm : m ∉ meteoList.map Prod.fst) :
    facteur_meteo m = none := by
  have hfind : meteoList.find? (fun kv => kv.1 == m) = none := by
    rw [List.find?_eq_none]
    intro kv hkv
    simp only [beq_iff_eq]
    intro hEq
    exact hm (hEq ▸ List.mem_map_of_mem Prod.fst hkv)
  simp [facteur_meteo, hfind]

theorem pairwise_of_all {α : Type} {R : α → α → Prop} (h : ∀ a b, R a b) :
    ∀ l : List α, l.Pairwise R
  | [] => List.Pairwise.nil
  | a :: l => List.Pairwise.cons (fun b _ => h a b) (pairwise_of_all h l)

/-! ### Concrete results used by the witnesses -/

/-- `compute "Monocristallin" "Ensoleillé" 20`. -/
def resMonoSunny20 : SimulationResult :=
  ⟨34, 8, 14592, 7296/17, 9600, 7434, 7158, 826⟩

/-- `compute "Monocristallin" "Nuageux" 20`. -/
def resMonoCloudy20 : SimulationResult :=
  ⟨34, 8, 10944, 5472/17, 9600, 7434, 3510, 826⟩

/-- `compute "Monocristallin" "Pluvieux" 20`. -/
def resMonoRainy20 : SimulationResult :=
  ⟨34, 8, 40128/5, 20064/85, 9600, 180576/25, 20064/25, 25924/25⟩

/-- `compute "Monocristallin" "Ensoleillé" 10`. -/
def resMonoSunny10 : SimulationResult :=
  ⟨17, 4, 7296, 7296/17, 4800, 32832/5, 3648/5, 8468/5⟩

/-- `compute "Amorphe" "Ensoleillé" 20`. -/
def resAmorpheSunny20 : SimulationResult :=
  ⟨34, 8, 14592, 7296/17, 6400, 7434, 7158, 826⟩

/-- `compute` at panel count 0 (any valid technology and weather). -/
def resZero : SimulationResult :=
  ⟨0, 0, 0, 0, 0, 0, 0, 8260⟩

/-- `comparison "Ensoleillé" 20`. -/
def rowsSunny20 : List (String × ComparisonRow) :=
  [("Monocristallin", ⟨20, 8, 9600, 14592, 7296/17⟩),
   ("Polycristallin", ⟨35/2, 8, 8000, 14592, 7296/17⟩),
   ("Amorphe", ⟨10, 8, 6400, 14592, 7296/17⟩),
   ("Hétérojonction", ⟨43/2, 8, 12000, 14592, 7296/17⟩),
   ("Bifacial", ⟨39/2, 8, 11200, 14592, 7296/17⟩)]

theorem compute_mono_sunny_20 :
    compute "Monocristallin" "Ensoleillé" 20 = some resMonoSunny20 := by
  simp [compute, data, facteur_meteo, dataList, meteoList, computeCore, resMonoSunny20,
    surface_par_module, puissance_par_panneau, irradiation_marseille, conso_batiment]
  norm_num [SimulationResult.mk.injEq, min_def, max_def]

theorem compute_mono_cloudy_20 :
    compute "Monocristallin" "Nuageux" 20 = some resMonoCloudy20 := by
  simp [compute, data, facteur_meteo, dataList, meteoList, computeCore, resMonoCloudy20,
    surface_par_module, puissance_par_panneau, irradiation_marseille, conso_batiment]
  norm_num [SimulationResult.mk.injEq, min_def, max_def]

theorem compute_mono_rainy_20 :
    compute "Monocristallin" "Pluvieux" 20 = some resMonoRainy20 := by
  simp [compute, data, facteur_meteo, dataList, meteoList, computeCore, resMonoRainy20,
    surface_par_module, puissance_par_panneau, irradiation_marseille, conso_batiment]
  norm_num [SimulationResult.mk.injEq, min_def, max_def]

theorem compute_mono_sunny_10 :
    compute "Monocristallin" "Ensoleillé" 10 = some resMonoSunny10 := by
  simp [compute, data, facteur_meteo, dataList, meteoList, computeCore, resMonoSunny10,
    surface_par_module, puissance_par_panneau, irradiation_marseille, conso_batiment]
  norm_num [SimulationResult.mk.injEq, min_def, max_def]

theorem compute_amorphe_sunny_20 :
    compute "Amorphe" "Ensoleillé" 20 = some resAmorpheSunny20 := by
  simp [compute, data, facteur_meteo, dataList, meteoList, computeCore, resAmorpheSunny20,
    surface_par_module, puissance_par_panneau, irradiation_marseille, conso_batiment]
  norm_num [SimulationResult.mk.injEq, min_def, max_def]

theorem compute_mono_sunny_0 :
    compute "Monocristallin" "Ensoleillé" 0 = some resZero := by
  simp [compute, data, facteur_meteo, dataList, meteoList, computeCore, resZero,
    surface_par_module, puissance_par_panneau, irradiation_marseille, conso_batiment]

theorem comparison_sunny_20 :
    comparison "Ensoleillé" 20 = some rowsSunny20 := by
  simp [comparison, facteur_meteo, meteoList, dataList, comparisonRow, rowsSunny20,
    surface_par_module, puissance_par_panneau, irradiation_marseille]
  norm_num [ComparisonRow.mk.injEq, Prod.ext_iff]

/-! ### Claims -/

/-- C1: for every valid input (technology and weather keys that resolve, any
panel count), the energy balance satisfies
`autoconso = min(conso_batiment, production) * 0.9` exactly,
`injecte = max(0, production - autoconso)`,
`reprise = max(0, conso_batiment - autoconso)`, with `conso_batiment = 8260`. -/
theorem balance_decomposition (p m : String) (n : ℕ) (r : SimulationResult)
    (h : compute p m n = some r) :
    conso_batiment = 8260 ∧
    r.autoconso = min conso_batiment r.production * 0.9 ∧
    r.injecte = max 0 (r.production - r.autoconso) ∧
    r.reprise = max 0 (conso_batiment - r.autoconso) := by
  rcases compute_eq_some_iff.1 h with ⟨d, f, hd, hf, rfl⟩
  exact ⟨rfl, rfl, rfl, rfl⟩

/-- Witness for C1 at (Monocristallin, Ensoleillé, 20). -/
theorem balance_decomposition_witness :
    conso_batiment = 8260 ∧
    resMonoSunny20.autoconso = min conso_batiment resMonoSunny20.production * 0.9 ∧
    resMonoSunny20.injecte = max 0 (resMonoSunny20.production - resMonoSunny20.autoconso) ∧
    resMonoSunny20.reprise = max 0 (conso_batiment - resMonoSunny20.autoconso) :=
  balance_decomposition "Monocristallin" "Ensoleillé" 20 resMonoSunny20 compute_mono_sunny_20

/-- C2: for every valid input, `autoconso + injecte = production`, without
assuming production is at most demand. -/
theorem autoconso_add_injecte (p m : String) (n : ℕ) (r : SimulationResult)
    (h : compute p m n = some r) :
    r.autoconso + r.injecte = r.production := by
  rcases compute_eq_some_iff.1 h with ⟨d, f, hd, hf, rfl⟩
  have hf0 : 0 < f := facteur_meteo_pos hf
  have hP : 0 ≤ (n : ℚ) * puissance_par_panneau * irradiation_marseille * f :=
    mul_nonneg (mul_nonneg (mul_nonneg (Nat.cast_nonneg n)
      (by norm_num [puissance_par_panneau])) (by norm_num [irradiation_marseille])) hf0.le
  show min conso_batiment ((n : ℚ) * puissance_par_panneau * irradiation_marseille * f) * 0.9 +
      max 0 ((n : ℚ) * puissance_par_panneau * irradiation_marseille * f -
        min conso_batiment ((n : ℚ) * puissance_par_panneau * irradiation_marseille * f) * 0.9) =
      (n : ℚ) * puissance_par_panneau * irradiation_marseille * f
  set P : ℚ := (n : ℚ) * puissance_par_panneau * irradiation_marseille * f with hPdef
  have h1 : min conso_batiment P ≤ P := min_le_right _ _
  have h2 : 0 ≤ min conso_batiment P := le_min (by norm_num [conso_batiment]) hP
  have h3 : min conso_batiment P * 0.9 ≤ P := by nlinarith
  rw [max_eq_right (by linarith)]
  ring

/-- Witness for C2 at (Monocristallin, Ensoleillé, 20). -/
theorem autoconso_add_injecte_witness :
    resMonoSunny20.autoconso + resMonoSunny20.injecte = resMonoSunny20.production :=
  autoconso_add_injecte "Monocristallin" "Ensoleillé" 20 resMonoSunny20 compute_mono_sunny_20

/-- C3: for every valid input, the efficiency is 0 whenever the total area is
0, and otherwise equals `production / surface_totale` exactly (the division is
guarded by `surface_totale or 1`, so the degenerate case is not a division
fault). -/
theorem efficiency_guard (p m : String) (n : ℕ) (r : SimulationResult)
    (h : compute p m n = some r) :
    (r.surface_totale = 0 → r.efficacite = 0) ∧
    (r.surface_totale ≠ 0 → r.efficacite = r.production / r.surface_totale) := by
  rcases compute_eq_some_iff.1 h with ⟨d, f, hd, hf, rfl⟩
  constructor
  · intro h0
    have hn : (n : ℚ) = 0 := by
      have h0' : surface_par_module * (n : ℚ) = 0 := h0
      rcases mul_eq_zero.1 h0' with hs | hn
      · exact absurd hs (by norm_num [surface_par_module])
      · exact hn
    show ((n : ℚ) * puissance_par_panneau * irradiation_marseille * f) /
        (if surface_par_module * (n : ℚ) = 0 then 1 else surface_par_module * (n : ℚ)) = 0
    rw [hn]
    norm_num
  · intro hne
    have hne' : ¬ surface_par_module * (n : ℚ) = 0 := hne
    show ((n : ℚ) * puissance_par_panneau * irradiation_marseille * f) /
        (if surface_par_module * (n : ℚ) = 0 then 1 else surface_par_module * (n : ℚ)) =
      ((n : ℚ) * puissance_par_panneau * irradiation_marseille * f) /
        (surface_par_module * (n : ℚ))
    rw [if_neg hne']

/-- Witness for C3 at (Monocristallin, Ensoleillé, 20). -/
theorem efficiency_guard_witness :
    (resMonoSunny20.surface_totale = 0 → resMonoSunny20.efficacite = 0) ∧
    (resMonoSunny20.surface_totale ≠ 0 →
      resMonoSunny20.efficacite = resMonoSunny20.production / resMonoSunny20.surface_totale) :=
  efficiency_guard "Monocristallin" "Ensoleillé" 20 resMonoSunny20 compute_mono_sunny_20

/-- C4: for every valid technology and weather, panel count 0 yields zero
area, power, production, efficiency, cost, self-consumption and export, and
`reprise = conso_batiment = 8260`. -/
theorem zero_count_boundary (p m : String) (r : SimulationResult)
    (h : compute p m 0 = some r) :
    r.surface_totale = 0 ∧ r.puissance_kWp = 0 ∧ r.production = 0 ∧
    r.efficacite = 0 ∧ r.cout_total = 0 ∧ r.autoconso = 0 ∧ r.injecte = 0 ∧
    r.reprise = conso_batiment ∧ conso_batiment = 8260 := by
  rcases compute_eq_some_iff.1 h with ⟨d, f, hd, hf, rfl⟩
  norm_num [computeCore, surface_par_module, puissance_par_panneau,
    irradiation_marseille, conso_batiment, min_def, max_def]

/-- Witness for C4 at (Monocristallin, Ensoleillé). -/
theorem zero_count_boundary_witness :
    resZero.surface_totale = 0 ∧ resZero.puissance_kWp = 0 ∧ resZero.production = 0 ∧
    resZero.efficacite = 0 ∧ resZero.cout_total = 0 ∧ resZero.autoconso = 0 ∧
    resZero.injecte = 0 ∧ resZero.reprise = conso_batiment ∧ conso_batiment = 8260 :=
  zero_count_boundary "Monocristallin" "Ensoleillé" resZero compute_mono_sunny_0

/-- C5: concrete scenario (Monocristallin with nominal efficiency 20.0% and
price 1.20/W, Ensoleillé with factor 1.0, 20 panels): area 34, power 8 kWp,
production 14592 kWh, efficiency 14592/34 ≈ 429.2 kWh/m², cost 9600,
self-consumed 7434, exported 7158, imported 826. -/
theorem concrete_scenario_sunny :
    data "Monocristallin" = some ⟨20, 1.20⟩ ∧
    facteur_meteo "Ensoleillé" = some 1 ∧
    compute "Monocristallin" "Ensoleillé" 20 =
      some ⟨34, 8, 14592, 14592/34, 9600, 7434, 7158, 826⟩ ∧
    |(14592 / 34 : ℚ) - 429.2| < 0.05 := by
  refine ⟨by norm_num [data, dataList], by norm_num [facteur_meteo, meteoList], ?_,
    by rw [abs_lt]; constructor <;> norm_num⟩
  simp [compute, data, facteur_meteo, dataList, meteoList, computeCore,
    surface_par_module, puissance_par_panneau, irradiation_marseille, conso_batiment]
  norm_num [SimulationResult.mk.injEq, min_def, max_def]

/-- C6: for a fixed valid technology and panel count `n > 0`, production under
Ensoleillé ≥ production under Nuageux ≥ production under Pluvieux. -/
theorem weather_ordering (p : String) (n : ℕ) (hn : 0 < n)
    (r1 r2 r3 : SimulationResult)
    (h1 : compute p "Ensoleillé" n = some r1)
    (h2 : compute p "Nuageux" n = some r2)
    (h3 : compute p "Pluvieux" n = some r3) :
    r3.production ≤ r2.production ∧ r2.production ≤ r1.production := by
  rcases compute_eq_some_iff.1 h1 with ⟨d1, f1, hd1, hf1, rfl⟩
  rcases compute_eq_some_iff.1 h2 with ⟨d2, f2, hd2, hf2, rfl⟩
  rcases compute_eq_some_iff.1 h3 with ⟨d3, f3, hd3, hf3, rfl⟩
  have e1 : f1 = 1 := by
    have : facteur_meteo "Ensoleillé" = some 1 := by norm_num [facteur_meteo, meteoList]
    exact Option.some.inj (hf1.symm.trans this)
  have e2 : f2 = 3/4 := by
    have : facteur_meteo "Nuageux" = some (3/4) := by
      simp [facteur_meteo, meteoList]; norm_num
    exact Option.some.inj (hf2.symm.trans this)
  have e3 : f3 = 11/20 := by
    have : facteur_meteo "Pluvieux" = some (11/20) := by
      simp [facteur_meteo, meteoList]; norm_num
    exact Option.some.inj (hf3.symm.trans this)
  subst e1 e2 e3
  have hc : (0 : ℚ) ≤ (n : ℚ) * puissance_par_panneau * irradiation_marseille :=
    mul_nonneg (mul_nonneg (Nat.cast_nonneg n)
      (by norm_num [puissance_par_panneau])) (by norm_num [irradiation_marseille])
  constructor
  · show (n : ℚ) * puissance_par_panneau * irradiation_marseille * (11/20) ≤
        (n : ℚ) * puissance_par_panneau * irradiation_marseille * (3/4)
    nlinarith
  · show (n : ℚ) * puissance_par_panneau * irradiation_marseille * (3/4) ≤
        (n : ℚ) * puissance_par_panneau * irradiation_marseille * 1
    nlinarith

/-- Witness for C6 at (Monocristallin, 20). -/
theorem weather_ordering_witness :
    resMonoRainy20.production ≤ resMonoCloudy20.production ∧
    resMonoCloudy20.production ≤ resMonoSunny20.production :=
  weather_ordering "Monocristallin" 20 (by norm_num) resMonoSunny20 resMonoCloudy20
    resMonoRainy20 compute_mono_sunny_20 compute_mono_cloudy_20 compute_mono_rainy_20

/-- C7: for fixed valid technology and weather, production is non-decreasing
in the panel count over the slider range 0..25. -/
theorem production_monotone (p m : String) (a b : ℕ) (hab : a ≤ b) (hb : b ≤ 25)
    (r s : SimulationResult)
    (hr : compute p m a = some r) (hs : compute p m b = some s) :
    r.production ≤ s.production := by
  rcases compute_eq_some_iff.1 hr with ⟨d1, f1, hd1, hf1, rfl⟩
  rcases compute_eq_some_iff.1 hs with ⟨d2, f2, hd2, hf2, rfl⟩
  have ef : f2 = f1 := Option.some.inj (hf2.symm.trans hf1)
  subst ef
  have hf0 : 0 < f2 := facteur_meteo_pos hf1
  have hcast : (a : ℚ) ≤ (b : ℚ) := Nat.cast_le.2 hab
  show (a : ℚ) * puissance_par_panneau * irradiation_marseille * f2 ≤
      (b : ℚ) * puissance_par_panneau * irradiation_marseille * f2
  have s1 : (a : ℚ) * puissance_par_panneau ≤ (b : ℚ) * puissance_par_panneau :=
    mul_le_mul_of_nonneg_right hcast (by norm_num [puissance_par_panneau])
  have s2 : (a : ℚ) * puissance_par_panneau * irradiation_marseille ≤
      (b : ℚ) * puissance_par_panneau * irradiation_marseille :=
    mul_le_mul_of_nonneg_right s1 (by norm_num [irradiation_marseille])
  exact mul_le_mul_of_nonneg_right s2 hf0.le

/-- Witness for C7 at (Monocristallin, Ensoleillé), counts 10 ≤ 20 ≤ 25. -/
theorem production_monotone_witness :
    resMonoSunny10.production ≤ resMonoSunny20.production :=
  production_monotone "Monocristallin" "Ensoleillé" 10 20 (by norm_num) (by norm_num)
    resMonoSunny10 resMonoSunny20 compute_mono_sunny_10 compute_mono_sunny_20

/-- C8: an unknown technology key, or an unknown weather key, makes `compute`
fail fast (the dict subscript has no entry, modelled as `none`), rather than
silently substituting a default. -/
theorem unknown_key_fails (p m : String) (n : ℕ)
    (h : p ∉ dataList.map Prod.fst ∨ m ∉ meteoList.map Prod.fst) :
    compute p m n = none := by
  rcases h with hp | hm
  · simp [compute, data_eq_none hp]
  · cases hd : data p with
    | none => simp [compute, hd]
    | some d => simp [compute, hd, facteur_eq_none hm]

/-- Witness for C8: the unknown key "Parasol" fails. -/
theorem unknown_key_fails_witness :
    ("Parasol" ∉ dataList.map Prod.fst) ∧ compute "Parasol" "Ensoleillé" 5 = none :=
  ⟨by decide, unknown_key_fails "Parasol" "Ensoleillé" 5 (Or.inl (by decide))⟩

/-- C9: `compute` is deterministic and referentially transparent: identical
inputs yield identical results (it is a pure function of its arguments). -/
theorem compute_deterministic (p₁ p₂ m₁ m₂ : String) (n₁ n₂ : ℕ)
    (hp : p₁ = p₂) (hm : m₁ = m₂) (hn : n₁ = n₂) :
    compute p₁ m₁ n₁ = compute p₂ m₂ n₂ := by
  rw [hp, hm, hn]

/-- Witness for C9 at (Monocristallin, Ensoleillé, 20). -/
theorem compute_deterministic_witness :
    compute "Monocristallin" "Ensoleillé" 20 = compute "Monocristallin" "Ensoleillé" 20 :=
  compute_deterministic "Monocristallin" "Monocristallin" "Ensoleillé" "Ensoleillé"
    20 20 rfl rfl rfl

/-- C10: the technology influences only the cost (and the displayed nominal
efficiency): two runs differing only in the technology agree on area, power,
production, efficiency and the whole energy balance; and in comparison mode
every row carries the same production and the same efficiency. -/
theorem technology_independence (p₁ p₂ m : String) (n : ℕ)
    (r₁ r₂ : SimulationResult) (rows : List (String × ComparisonRow))
    (h₁ : compute p₁ m n = some r₁) (h₂ : compute p₂ m n = some r₂)
    (hrows : comparison m n = some rows) :
    r₁.surface_totale = r₂.surface_totale ∧
    r₁.puissance_kWp = r₂.puissance_kWp ∧
    r₁.production = r₂.production ∧
    r₁.efficacite = r₂.efficacite ∧
    r₁.autoconso = r₂.autoconso ∧
    r₁.injecte = r₂.injecte ∧
    r₁.reprise = r₂.reprise ∧
    rows.Pairwise (fun a b =>
      a.2.production = b.2.production ∧ a.2.efficacite = b.2.efficacite) := by
  rcases compute_eq_some_iff.1 h₁ with ⟨d₁, f₁, hd₁, hf₁, rfl⟩
  rcases compute_eq_some_iff.1 h₂ with ⟨d₂, f₂, hd₂, hf₂, rfl⟩
  have ef : f₂ = f₁ := Option.some.inj (hf₂.symm.trans hf₁)
  subst ef
  have hrows' : rows = dataList.map (fun kv => (kv.1, comparisonRow kv.2 n f₂)) := by
    rw [comparison, hf₂] at hrows
    exact (Option.some.inj hrows).symm
  subst hrows'
  refine ⟨rfl, rfl, rfl, rfl, rfl, rfl, rfl, ?_⟩
  rw [List.pairwise_map]
  exact pairwise_of_all (fun a b => ⟨rfl, rfl⟩) dataList

/-- Witness for C10: Monocristallin vs Amorphe at (Ensoleillé, 20). -/
theorem technology_independence_witness :
    resMonoSunny20.surface_totale = resAmorpheSunny20.surface_totale ∧
    resMonoSunny20.puissance_kWp = resAmorpheSunny20.puissance_kWp ∧
    resMonoSunny20.production = resAmorpheSunny20.production ∧
    resMonoSunny20.efficacite = resAmorpheSunny20.efficacite ∧
    resMonoSunny20.autoconso = resAmorpheSunny20.autoconso ∧
    resMonoSunny20.injecte = resAmorpheSunny20.injecte ∧
    resMonoSunny20.reprise = resAmorpheSunny20.reprise ∧
    rowsSunny20.Pairwise (fun a b =>
      a.2.production = b.2.production ∧ a.2.efficacite = b.2.efficacite) :=
  technology_independence "Monocristallin" "Amorphe" "Ensoleillé" 20
    resMonoSunny20 resAmorpheSunny20 rowsSunny20
    compute_mono_sunny_20 compute_amorphe_sunny_20 comparison_sunny_20

end PVSim
